import Mathlib

/-!
Shallow embedding of the hybrid-OCR decision core of `backend/app.py`
(repository SIH_25240_LEKHA): script-character counting, candidate scoring
and selection (`run_hybrid_ocr`), the width computation of
`preprocess_image` (Python float arithmetic modelled exactly, as rationals
rounded to IEEE-754 binary64), and the source-language heuristic of the
`/translate` endpoint.

Strings are modelled as Lean `String`s (lists of Unicode scalar values),
machine-independent integers as `ℕ`/`ℤ`, Python's IEEE-754 doubles as exact
rationals together with an explicit round-to-nearest-even operation.
-/

/-- The test `'ऀ' <= ch <= 'ॿ'` from `count_devanagari_chars`
(app.py line 23): Python compares characters by code point. -/
def isDev (c : Char) : Bool := decide (0x0900 ≤ c.toNat ∧ c.toNat ≤ 0x097F)

/-- The test `'඀' <= ch <= '෿'` from `count_sinhala_chars`
(app.py line 26). -/
def isSin (c : Char) : Bool := decide (0x0D80 ≤ c.toNat ∧ c.toNat ≤ 0x0DFF)

/-- `count_devanagari_chars` (app.py lines 22-23): `sum(1 for ch in text if
'ऀ' <= ch <= 'ॿ')`. -/
def count_devanagari_chars (text : String) : ℕ := text.data.countP isDev

/-- `count_sinhala_chars` (app.py lines 25-26): `sum(1 for ch in text if
'඀' <= ch <= '෿')`. -/
def count_sinhala_chars (text : String) : ℕ := text.data.countP isSin

/-- The character class stripped by Python's `str.strip()`: exactly the
code points for which `str.isspace()` holds (ASCII whitespace, the C1
separators, NEL, NBSP, and the Unicode space/line/paragraph separators). -/
def pyIsSpace (c : Char) : Bool :=
  decide ((0x09 ≤ c.toNat ∧ c.toNat ≤ 0x0D) ∨ (0x1C ≤ c.toNat ∧ c.toNat ≤ 0x1F) ∨
    c.toNat = 0x20 ∨ c.toNat = 0x85 ∨ c.toNat = 0xA0 ∨ c.toNat = 0x1680 ∨
    (0x2000 ≤ c.toNat ∧ c.toNat ≤ 0x200A) ∨ c.toNat = 0x2028 ∨ c.toNat = 0x2029 ∨
    c.toNat = 0x202F ∨ c.toNat = 0x205F ∨ c.toNat = 0x3000)

/-- Python `text.strip()`: drop leading and trailing whitespace
(app.py lines 124 and 135). -/
def pyStrip (s : String) : String :=
  String.mk (((s.data.dropWhile pyIsSpace).reverse.dropWhile pyIsSpace).reverse)

/-- One scored OCR candidate, as built by app.py lines 109-124: the dict
`{"text", "engine", "dev_count", "sin_count"}` together with the fields
added by the scoring loop (`dev_score`, `sin_score`, `primary_score`,
`length`). -/
structure Candidate where
  text : String
  engine : String
  dev_count : ℕ
  sin_count : ℕ
  dev_score : ℕ
  sin_score : ℕ
  primary_score : ℕ
  length : ℕ
deriving DecidableEq

/-- Candidate construction plus the scoring loop of app.py lines 109-124:
`dev_score = dev_count`, `sin_score = sin_count`,
`primary_score = max(dev_score, sin_score)`, `length = len(text.strip())`. -/
def mkCandidate (text engine : String) : Candidate :=
  { text := text
    engine := engine
    dev_count := count_devanagari_chars text
    sin_count := count_sinhala_chars text
    dev_score := count_devanagari_chars text
    sin_score := count_sinhala_chars text
    primary_score := max (count_devanagari_chars text) (count_sinhala_chars text)
    length := (pyStrip text).length }

/-- The fixed candidate list of app.py lines 109-113, in source order:
easyocr (Devanagari engine), tesseract-nep, tesseract-sin. -/
def mkCandidates (easy_text nep_text sin_text : String) : List Candidate :=
  [mkCandidate easy_text "easyocr",
   mkCandidate nep_text "tesseract-nep",
   mkCandidate sin_text "tesseract-sin"]

/-- The sort key of app.py line 127: the Python tuple
`(x['primary_score'], x['length'])`. -/
def candKey (c : Candidate) : ℕ × ℕ := (c.primary_score, c.length)

/-- Strict lexicographic comparison of Python tuples of two ints. -/
def keyLt (x y : ℕ × ℕ) : Bool :=
  decide (x.1 < y.1 ∨ (x.1 = y.1 ∧ x.2 < y.2))

/-- `candGe x y` holds when `x`'s sort key is at least `y`'s: the order in
which Python's stable `sorted(..., reverse=True)` keeps `x` before `y`. -/
def candGe (x y : Candidate) : Prop := keyLt (candKey x) (candKey y) = false

instance : DecidableRel candGe := fun _ _ => instDecidableEqBool _ _

/-- `sorted(candidates, key=lambda x: (x['primary_score'], x['length']),
reverse=True)` (app.py line 127): Python's sort is stable, so it agrees
with any stable sort by the descending key order, in particular with
insertion sort by `candGe`. -/
def pySortedDesc (l : List Candidate) : List Candidate :=
  List.insertionSort candGe l

/-- `max(l, key=lambda x: x['length'])` tail: Python's `max` keeps the
first maximal element, replacing the accumulator only on a strictly
greater key. -/
def pyMaxByLength (acc : Candidate) : List Candidate → Candidate
  | [] => acc
  | x :: xs => pyMaxByLength (if acc.length < x.length then x else acc) xs

/-- `max(candidates, key=lambda x: x['length'])` (app.py line 133). -/
def pyMaxLen (l : List Candidate) (d : Candidate) : Candidate :=
  match l with
  | [] => d
  | x :: xs => pyMaxByLength x xs

/-- `candidates_sorted[0]` (app.py lines 127-128): the top-ranked
candidate.  The default never matters: the candidate list has three
elements. -/
def rankedBest (easy_text nep_text sin_text : String) : Candidate :=
  (pySortedDesc (mkCandidates easy_text nep_text sin_text)).headD (mkCandidate "" "")

/-- The zero-score override of app.py lines 131-133: if the top-ranked
candidate has `primary_score == 0`, pick the candidate of maximum
`length` from the original (unsorted) list instead. -/
def selectedBest (easy_text nep_text sin_text : String) : Candidate :=
  if (rankedBest easy_text nep_text sin_text).primary_score = 0 then
    pyMaxLen (mkCandidates easy_text nep_text sin_text) (mkCandidate "" "")
  else rankedBest easy_text nep_text sin_text

/-- Language detection over the chosen text (app.py lines 139-144). -/
def detectLang (chosen_text : String) : String :=
  if count_devanagari_chars chosen_text > count_sinhala_chars chosen_text then "ne"
  else if count_sinhala_chars chosen_text > count_devanagari_chars chosen_text then "si"
  else "unknown"

/-- Outcome of one OCR backend call: the backend either returns a string
or raises, which the adapter's `try`/`except` block observes as an
exception message (app.py lines 69-74, 83-87, 96-100). -/
inductive AdapterResult where
  | ok (text : String)
  | err (msg : String)

/-- The text an adapter contributes: the backend's output, or `""` when
the backend raised (the `except` branch assigns the empty string). -/
def adapterText : AdapterResult → String
  | .ok t => t
  | .err _ => ""

/-- The error message an adapter records in the debug dict: present
exactly when the backend raised. -/
def adapterError : AdapterResult → Option String
  | .ok _ => none
  | .err m => some m

/-- The `debug` dict of `run_hybrid_ocr`, with one field per key the
source writes; the three `*_error` keys are present only on failure. -/
structure Debug where
  easy_error : Option String
  easy_text : String
  easy_dev_count : ℕ
  easy_sin_count : ℕ
  tess_sin_error : Option String
  tess_sin_text : String
  tess_sin_dev_count : ℕ
  tess_sin_count : ℕ
  tess_nep_error : Option String
  tess_nep_text : String
  tess_nep_dev_count : ℕ
  tess_nep_sin_count : ℕ
  candidates : List Candidate
  chosen_engine : String
  chosen_detected_lang : String
  chosen_length : ℕ

/-- The 4-tuple returned by `run_hybrid_ocr` (app.py line 149). -/
structure OcrResult where
  text : String
  lang : String
  engine : String
  debug : Debug

/-- `run_hybrid_ocr` (app.py lines 54-149), from the point where the three
backend calls have produced their outcomes.  Image preprocessing and the
backend invocations themselves are external I/O; each backend outcome
enters as an `AdapterResult` and the `try`/`except` boundary maps a raise
to the empty string plus a recorded error, exactly as lines 69-106 do. -/
def run_hybrid_ocr (easyR tessSinR tessNepR : AdapterResult) : OcrResult :=
  let easy_text := adapterText easyR
  let tesseract_sin_text := adapterText tessSinR
  let tesseract_nep_text := adapterText tessNepR
  let best := selectedBest easy_text tesseract_nep_text tesseract_sin_text
  let chosen_text := pyStrip best.text
  let detected_lang := detectLang chosen_text
  { text := chosen_text
    lang := detected_lang
    engine := best.engine
    debug :=
      { easy_error := adapterError easyR
        easy_text := easy_text
        easy_dev_count := count_devanagari_chars easy_text
        easy_sin_count := count_sinhala_chars easy_text
        tess_sin_error := adapterError tessSinR
        tess_sin_text := tesseract_sin_text
        tess_sin_dev_count := count_devanagari_chars tesseract_sin_text
        tess_sin_count := count_sinhala_chars tesseract_sin_text
        tess_nep_error := adapterError tessNepR
        tess_nep_text := tesseract_nep_text
        tess_nep_dev_count := count_devanagari_chars tesseract_nep_text
        tess_nep_sin_count := count_sinhala_chars tesseract_nep_text
        candidates := pySortedDesc (mkCandidates easy_text tesseract_nep_text tesseract_sin_text)
        chosen_engine := best.engine
        chosen_detected_lang := detected_lang
        chosen_length := chosen_text.length } }

/-- The source-language heuristic of the `/translate` endpoint
(app.py lines 189-194): any Devanagari character wins, else any Sinhala
character, else `'auto'`. -/
def translate_src_lang (text : String) : String :=
  if text.data.any isDev then "ne"
  else if text.data.any isSin then "si"
  else "auto"

/-- Fuel-driven base-2 logarithm: `log2Fuel fuel n` is `⌊log₂ n⌋` whenever
`n ≤ fuel` and `1 ≤ n`.  (Core's `Nat.log2` is defined by well-founded
recursion and does not reduce inside `decide`; this structural version
does.) -/
def log2Fuel : ℕ → ℕ → ℕ
  | 0, _ => 0
  | fuel + 1, n => if 2 ≤ n then log2Fuel fuel (n / 2) + 1 else 0

/-- `⌊log₂ n⌋` for `n ≥ 1` (and 0 at 0), as a structurally reducing
function. -/
def natLog2 (n : ℕ) : ℕ := log2Fuel n n

/-- Round the fraction `p / q` (with `q ≠ 0`) to the nearest integer,
ties to even: the rounding mode of IEEE-754 binary64 arithmetic. -/
def roundHalfEvenDiv (p q : ℕ) : ℕ :=
  let d := p / q
  let r := p % q
  if 2 * r < q then d
  else if q < 2 * r then d + 1
  else if d % 2 = 0 then d else d + 1

/-- The IEEE-754 binary64 value nearest to `a / b`, for `1 ≤ a / b` far
below overflow (every float in `preprocess_image` lies in `[1, 2^11]`):
a 53-bit significand scaled by a power of two, round to nearest, ties to
even.  The value is returned as a dyadic pair `(num, shift)` denoting
`num / 2 ^ shift`. -/
def roundDivDouble (a b : ℕ) : ℕ × ℕ :=
  let L := natLog2 (a / b)
  if 52 ≤ L then (roundHalfEvenDiv a (b * 2 ^ (L - 52)) * 2 ^ (L - 52), 0)
  else (roundHalfEvenDiv (a * 2 ^ (52 - L)) b, 52 - L)

/-- The new width `int(w * scale)` with `scale = upscale_width / float(w)`
(app.py lines 39-40), for `1 ≤ w < 1600`: the division and the
multiplication are IEEE-754 binary64 operations (exact quotient and exact
product, each rounded to the nearest double), and Python's `int()`
truncates the positive result, i.e. takes the floor. -/
def pyNewWidth (w : ℕ) : ℕ :=
  let scale := roundDivDouble 1600 w
  let prod := roundDivDouble (w * scale.1) (2 ^ scale.2)
  prod.1 / 2 ^ prod.2

/-- The width of the image returned by `preprocess_image` (app.py lines
28-49) as a function of the input width `w ≥ 1`: resized when
`w < upscale_width` (1600), untouched otherwise. -/
def preprocess_width (w : ℕ) : ℕ :=
  if w < 1600 then pyNewWidth w else w

/-- Specification-side reading of step 2 of the selector (spec section
4.4): the winner of ranking by `(primaryScore, lengthScore)` descending
with ties broken by the fixed input order is the earliest candidate whose
key is not beaten by any later one. -/
def specFirstMax3 (a b c : Candidate) : Candidate :=
  if keyLt (candKey a) (candKey b) then
    if keyLt (candKey b) (candKey c) then c else b
  else
    if keyLt (candKey a) (candKey c) then c else a

/-- Specification-side reading of step 3 of the selector (spec section
4.4): the candidate of maximum `lengthScore`, ties broken by the same
fixed order — the earliest candidate whose length is not beaten by any
later one. -/
def specFirstMaxLen3 (a b c : Candidate) : Candidate :=
  if b.length ≤ a.length then
    if c.length ≤ a.length then a else c
  else
    if c.length ≤ b.length then b else c

/-! ## Helper lemmas about the selection primitives -/

instance : IsTotal Candidate candGe := by
  constructor
  intro x y
  unfold candGe
  simp only [keyLt, decide_eq_false_iff_not]
  omega

instance : IsTrans Candidate candGe := by
  constructor
  intro x y z hxy hyz
  unfold candGe at hxy hyz ⊢
  simp only [keyLt, decide_eq_false_iff_not] at hxy hyz ⊢
  omega

/-- Membership is preserved by the Python sort (it is a permutation). -/
theorem mem_pySortedDesc {x : Candidate} {l : List Candidate} :
    x ∈ pySortedDesc l ↔ x ∈ l :=
  (List.perm_insertionSort candGe l).mem_iff

theorem pySortedDesc_ne_nil {l : List Candidate} (h : l ≠ []) : pySortedDesc l ≠ [] := by
  intro hnil
  apply h
  have hp : l.Perm (pySortedDesc l) := (List.perm_insertionSort candGe l).symm
  rw [hnil] at hp
  exact hp.eq_nil

theorem headD_mem {l : List Candidate} (d : Candidate) (h : l ≠ []) : l.headD d ∈ l := by
  cases l with
  | nil => exact absurd rfl h
  | cons x xs => simp

theorem rankedBest_mem (e n s : String) : rankedBest e n s ∈ mkCandidates e n s := by
  unfold rankedBest
  exact mem_pySortedDesc.mp
    (headD_mem _ (pySortedDesc_ne_nil (by simp [mkCandidates])))

theorem pyMaxByLength_mem (acc : Candidate) (l : List Candidate) :
    pyMaxByLength acc l = acc ∨ pyMaxByLength acc l ∈ l := by
  induction l generalizing acc with
  | nil => exact Or.inl rfl
  | cons x xs ih =>
    simp only [pyMaxByLength]
    by_cases h : acc.length < x.length
    · rw [if_pos h]
      rcases ih x with h1 | h1
      · exact Or.inr (by simp [h1])
      · exact Or.inr (by simp [h1])
    · rw [if_neg h]
      rcases ih acc with h1 | h1
      · exact Or.inl h1
      · exact Or.inr (by simp [h1])

theorem pyMaxLen_mem {l : List Candidate} (d : Candidate) (h : l ≠ []) :
    pyMaxLen l d ∈ l := by
  cases l with
  | nil => exact absurd rfl h
  | cons x xs =>
    rcases pyMaxByLength_mem x xs with h1 | h1
    · simp [pyMaxLen, h1]
    · simp [pyMaxLen, List.mem_cons, Or.inr h1]

theorem selectedBest_mem (e n s : String) : selectedBest e n s ∈ mkCandidates e n s := by
  unfold selectedBest
  split_ifs with h
  · exact pyMaxLen_mem _ (by simp [mkCandidates])
  · exact rankedBest_mem e n s

/-- The head of the stable descending sort of a three-element list is the
earliest element whose key is not beaten by a later one. -/
theorem pySortedDesc_three_headD (a b c d : Candidate) :
    (pySortedDesc [a, b, c]).headD d = specFirstMax3 a b c := by
  unfold pySortedDesc specFirstMax3
  cases hbc : keyLt (candKey b) (candKey c) <;>
    cases hab : keyLt (candKey a) (candKey b) <;>
      cases hac : keyLt (candKey a) (candKey c) <;>
        simp [List.insertionSort, List.orderedInsert, candGe, hbc, hab, hac]
  all_goals
    exfalso
    simp only [keyLt, decide_eq_false_iff_not, decide_eq_true_eq] at hbc hab hac
    omega

/-- Python's first-maximum `max(..., key=length)` over a three-element
list is the earliest element whose length is not beaten by a later one. -/
theorem pyMaxLen_three_eq (a b c d : Candidate) :
    pyMaxLen [a, b, c] d = specFirstMaxLen3 a b c := by
  simp only [pyMaxLen, pyMaxByLength, specFirstMaxLen3]
  split_ifs <;> first | rfl | omega

/-! ## Claim theorems -/

/-- C1: the selector ranks the three candidates by the tuple
`(primary_score, length)` in descending order, and whenever two or more
candidates have identical keys the winner is the one earliest in the fixed
input order [easyocr (Devanagari), tesseract-nep, tesseract-sin]: the
top-ranked candidate is exactly the earliest candidate whose key is not
beaten by a later one, the sorted trace is sorted by the descending key
order, and is a permutation of the input.  Determinism over a fixed triple
of raw outputs is immediate: `rankedBest` is a pure function of the three
texts. -/
theorem C1_selector_ranking_and_tiebreak (e n s : String) :
    rankedBest e n s =
      specFirstMax3 (mkCandidate e "easyocr") (mkCandidate n "tesseract-nep")
        (mkCandidate s "tesseract-sin") ∧
    (pySortedDesc (mkCandidates e n s)).Sorted candGe ∧
    (pySortedDesc (mkCandidates e n s)).Perm (mkCandidates e n s) := by
  refine ⟨?_, List.sorted_insertionSort candGe _, List.perm_insertionSort candGe _⟩
  unfold rankedBest mkCandidates
  exact pySortedDesc_three_headD _ _ _ _

set_option maxHeartbeats 1600000 in
/-- C2: when the top-ranked candidate has `primary_score = 0`, the selector
instead picks the candidate of maximum stripped length across all three,
ties broken by the same fixed order; and on the raw outputs
`{dev: "###???", nep: "", sin: "xx"}` the chosen text is `"###???"` with
detected language `unknown`. -/
theorem C2_zero_primary_fallback :
    (∀ e n s : String, (rankedBest e n s).primary_score = 0 →
      selectedBest e n s =
        specFirstMaxLen3 (mkCandidate e "easyocr") (mkCandidate n "tesseract-nep")
          (mkCandidate s "tesseract-sin")) ∧
    (run_hybrid_ocr (.ok "###???") (.ok "xx") (.ok "")).text = "###???" ∧
    (run_hybrid_ocr (.ok "###???") (.ok "xx") (.ok "")).lang = "unknown" := by
  refine ⟨?_, by decide, by decide⟩
  intro e n s h
  unfold selectedBest
  rw [if_pos h]
  unfold mkCandidates
  exact pyMaxLen_three_eq _ _ _ _

/-- Witness for C2 at the raw outputs `("###???", "", "xx")`, where no
candidate has a script character. -/
theorem C2_zero_primary_fallback_witness :
    selectedBest "###???" "" "xx" =
      specFirstMaxLen3 (mkCandidate "###???" "easyocr") (mkCandidate "" "tesseract-nep")
        (mkCandidate "xx" "tesseract-sin") :=
  C2_zero_primary_fallback.1 "###???" "" "xx" (by decide)

set_option maxHeartbeats 1600000 in
/-- C3: the detected language is computed by recounting Devanagari and
Sinhala characters over the chosen candidate's stripped text (the `text`
field of the result): `ne` when the Devanagari count is strictly greater,
`si` when the Sinhala count is strictly greater, `unknown` when equal. -/
theorem C3_detected_language_recomputed (a b c : AdapterResult) :
    ((run_hybrid_ocr a b c).text =
        pyStrip (selectedBest (adapterText a) (adapterText c) (adapterText b)).text) ∧
    (count_devanagari_chars (run_hybrid_ocr a b c).text >
        count_sinhala_chars (run_hybrid_ocr a b c).text →
      (run_hybrid_ocr a b c).lang = "ne") ∧
    (count_sinhala_chars (run_hybrid_ocr a b c).text >
        count_devanagari_chars (run_hybrid_ocr a b c).text →
      (run_hybrid_ocr a b c).lang = "si") ∧
    (count_devanagari_chars (run_hybrid_ocr a b c).text =
        count_sinhala_chars (run_hybrid_ocr a b c).text →
      (run_hybrid_ocr a b c).lang = "unknown") := by
  have hl : (run_hybrid_ocr a b c).lang = detectLang (run_hybrid_ocr a b c).text := rfl
  refine ⟨rfl, ?_, ?_, ?_⟩ <;> intro h <;> rw [hl] <;> unfold detectLang
  · rw [if_pos h]
  · rw [if_neg (by omega), if_pos h]
  · rw [if_neg (by omega), if_neg (by omega)]

/-- Witness for C3: one concrete run per branch of the language rule. -/
theorem C3_detected_language_recomputed_witness :
    (run_hybrid_ocr (.ok "क") (.ok "") (.ok "")).lang = "ne" ∧
    (run_hybrid_ocr (.ok "") (.ok "ක") (.ok "")).lang = "si" ∧
    (run_hybrid_ocr (.ok "x") (.ok "") (.ok "")).lang = "unknown" :=
  ⟨(C3_detected_language_recomputed (.ok "क") (.ok "") (.ok "")).2.1 (by decide),
   (C3_detected_language_recomputed (.ok "") (.ok "ක") (.ok "")).2.2.1 (by decide),
   (C3_detected_language_recomputed (.ok "x") (.ok "") (.ok "")).2.2.2 (by decide)⟩

/-- C4: each constructed candidate carries the Devanagari count, the
Sinhala count, their maximum as `primary_score`, and the stripped length;
consequently a non-empty text of Devanagari characters only has
`primary_score` equal to its length and is detected as `ne`. -/
theorem C4_candidate_scores :
    (∀ text engine : String,
      (mkCandidate text engine).dev_count = count_devanagari_chars text ∧
      (mkCandidate text engine).sin_count = count_sinhala_chars text ∧
      (mkCandidate text engine).primary_score =
        max (count_devanagari_chars text) (count_sinhala_chars text) ∧
      (mkCandidate text engine).length = (pyStrip text).length) ∧
    (∀ text engine : String, text ≠ "" → (∀ ch ∈ text.data, isDev ch = true) →
      (mkCandidate text engine).primary_score = text.length ∧
      detectLang text = "ne") := by
  constructor
  · intro text engine
    exact ⟨rfl, rfl, rfl, rfl⟩
  · intro text engine hne hall
    have hdev : count_devanagari_chars text = text.data.length :=
      List.countP_eq_length.mpr hall
    have hsin : count_sinhala_chars text = 0 := by
      apply List.countP_eq_zero.mpr
      intro ch hch
      have h1 := hall ch hch
      simp only [isDev, decide_eq_true_eq] at h1
      simp only [isSin, decide_eq_true_eq]
      omega
    have hnil : text.data ≠ [] := by
      intro h0
      apply hne
      have he : text = String.mk text.data := rfl
      rw [he, h0]
    have hpos : 0 < text.data.length := List.length_pos.mpr hnil
    constructor
    · show max (count_devanagari_chars text) (count_sinhala_chars text) = text.length
      rw [hdev, hsin, Nat.max_zero]
      rfl
    · unfold detectLang
      rw [if_pos (by omega)]

/-- Witness for C4 at the all-Devanagari input `"कख"`. -/
theorem C4_candidate_scores_witness :
    (mkCandidate "कख" "easyocr").primary_score = ("कख" : String).length ∧
    detectLang "कख" = "ne" :=
  C4_candidate_scores.2 "कख" "easyocr" (by decide) (by decide)

/-- C5: each adapter is independently fault-isolated: a raising backend is
observed as an empty-string candidate plus a recorded error message, and
the text/language/engine of the result are the same as if that backend had
returned `""` normally — the other adapters and the selection are
unaffected.  This holds for each of the three adapter slots. -/
theorem C5_adapter_fault_isolation (m : String) (x y : AdapterResult) :
    ((run_hybrid_ocr (.err m) x y).debug.easy_error = some m ∧
     (run_hybrid_ocr (.err m) x y).debug.easy_text = "" ∧
     (run_hybrid_ocr (.err m) x y).text = (run_hybrid_ocr (.ok "") x y).text ∧
     (run_hybrid_ocr (.err m) x y).lang = (run_hybrid_ocr (.ok "") x y).lang ∧
     (run_hybrid_ocr (.err m) x y).engine = (run_hybrid_ocr (.ok "") x y).engine) ∧
    ((run_hybrid_ocr x (.err m) y).debug.tess_sin_error = some m ∧
     (run_hybrid_ocr x (.err m) y).debug.tess_sin_text = "" ∧
     (run_hybrid_ocr x (.err m) y).text = (run_hybrid_ocr x (.ok "") y).text ∧
     (run_hybrid_ocr x (.err m) y).lang = (run_hybrid_ocr x (.ok "") y).lang ∧
     (run_hybrid_ocr x (.err m) y).engine = (run_hybrid_ocr x (.ok "") y).engine) ∧
    ((run_hybrid_ocr x y (.err m)).debug.tess_nep_error = some m ∧
     (run_hybrid_ocr x y (.err m)).debug.tess_nep_text = "" ∧
     (run_hybrid_ocr x y (.err m)).text = (run_hybrid_ocr x y (.ok "")).text ∧
     (run_hybrid_ocr x y (.err m)).lang = (run_hybrid_ocr x y (.ok "")).lang ∧
     (run_hybrid_ocr x y (.err m)).engine = (run_hybrid_ocr x y (.ok "")).engine) :=
  ⟨⟨rfl, rfl, rfl, rfl, rfl⟩, ⟨rfl, rfl, rfl, rfl, rfl⟩, ⟨rfl, rfl, rfl, rfl, rfl⟩⟩

/-- C6: when all three adapters raise, selection still succeeds: empty
chosen text, language `unknown`, and the three error messages recorded in
the diagnostics. -/
theorem C6_all_engines_fail (m1 m2 m3 : String) :
    (run_hybrid_ocr (.err m1) (.err m2) (.err m3)).text = "" ∧
    (run_hybrid_ocr (.err m1) (.err m2) (.err m3)).lang = "unknown" ∧
    (run_hybrid_ocr (.err m1) (.err m2) (.err m3)).debug.easy_error = some m1 ∧
    (run_hybrid_ocr (.err m1) (.err m2) (.err m3)).debug.tess_sin_error = some m2 ∧
    (run_hybrid_ocr (.err m1) (.err m2) (.err m3)).debug.tess_nep_error = some m3 :=
  ⟨rfl, rfl, rfl, rfl, rfl⟩

/-- C7 is false as stated: on the raw outputs `{dev: " क", nep: "",
sin: ""}` the result text `"क"` (stripped) is not the `text` field of any
of the three candidates (which are `" क"`, `""`, `""`). -/
theorem C7_counterexample :
    (run_hybrid_ocr (.ok " क") (.ok "") (.ok "")).text ∉
      ((run_hybrid_ocr (.ok " क") (.ok "") (.ok "")).debug.candidates.map
        Candidate.text) := by
  decide

/-- C7 amended: the result text is always exactly the *stripped* `text`
field of one element of the candidate set (and the reported engine is that
element's engine) — never a synthesized or merged string. -/
theorem C7_chosen_text_is_stripped_candidate (a b c : AdapterResult) :
    ∃ cand ∈ (run_hybrid_ocr a b c).debug.candidates,
      (run_hybrid_ocr a b c).text = pyStrip cand.text ∧
      (run_hybrid_ocr a b c).engine = cand.engine := by
  refine ⟨selectedBest (adapterText a) (adapterText c) (adapterText b), ?_, rfl, rfl⟩
  have h1 : (run_hybrid_ocr a b c).debug.candidates =
      pySortedDesc (mkCandidates (adapterText a) (adapterText c) (adapterText b)) := rfl
  rw [h1]
  exact mem_pySortedDesc.mpr (selectedBest_mem _ _ _)

/-- C8: the claim fails on the code.  For an input of width 97 the
computed scale `1600/97` and product `97 * (1600/97)` in IEEE-754 binary64
give `1599.9999999999998`, which Python's `int()` truncates to 1599: the
output width is neither exactly 1600 nor ≥ 1600. -/
theorem C8_preprocess_width_97 : preprocess_width 97 = 1599 := by decide

/-- C9: the script counters count exactly the characters in the two
inclusive Unicode ranges (equivalently, the length of the filtered list),
return 0 on the empty string, and return 0 on any string whose characters
all lie outside both ranges. -/
theorem C9_script_counters :
    (count_devanagari_chars "" = 0 ∧ count_sinhala_chars "" = 0) ∧
    (∀ s : String, count_devanagari_chars s = (s.data.filter isDev).length ∧
      count_sinhala_chars s = (s.data.filter isSin).length) ∧
    (∀ s : String, (∀ ch ∈ s.data, isDev ch = false ∧ isSin ch = false) →
      count_devanagari_chars s = 0 ∧ count_sinhala_chars s = 0) := by
  refine ⟨⟨rfl, rfl⟩, ?_, ?_⟩
  · intro s
    exact ⟨List.countP_eq_length_filter _ _, List.countP_eq_length_filter _ _⟩
  · intro s h
    constructor
    · exact List.countP_eq_zero.mpr fun a ha => by simp [(h a ha).1]
    · exact List.countP_eq_zero.mpr fun a ha => by simp [(h a ha).2]

/-- Witness for C9 at the ASCII string `"abc"`. -/
theorem C9_script_counters_witness :
    count_devanagari_chars "abc" = 0 ∧ count_sinhala_chars "abc" = 0 :=
  C9_script_counters.2.2 "abc" (by decide)

/-- C10: in the `/translate` source-language heuristic, any Devanagari
character wins (even in the presence of Sinhala characters); `si` needs a
Sinhala character and no Devanagari one; otherwise the source language is
`auto`. -/
theorem C10_translate_source_language (t : String) :
    ((∃ ch ∈ t.data, isDev ch = true) → translate_src_lang t = "ne") ∧
    ((∀ ch ∈ t.data, isDev ch = false) → (∃ ch ∈ t.data, isSin ch = true) →
      translate_src_lang t = "si") ∧
    ((∀ ch ∈ t.data, isDev ch = false) → (∀ ch ∈ t.data, isSin ch = false) →
      translate_src_lang t = "auto") := by
  refine ⟨?_, ?_, ?_⟩
  · intro h
    have h1 : t.data.any isDev = true := List.any_eq_true.mpr h
    simp [translate_src_lang, h1]
  · intro hno hyes
    have h1 : t.data.any isDev = false := by
      rw [List.any_eq_false]
      intro ch hch
      simp [hno ch hch]
    have h2 : t.data.any isSin = true := List.any_eq_true.mpr hyes
    simp [translate_src_lang, h1, h2]
  · intro hnd hns
    have h1 : t.data.any isDev = false := by
      rw [List.any_eq_false]
      intro ch hch
      simp [hnd ch hch]
    have h2 : t.data.any isSin = false := by
      rw [List.any_eq_false]
      intro ch hch
      simp [hns ch hch]
    simp [translate_src_lang, h1, h2]

/-- Witness for C10: a mixed Devanagari/Sinhala text goes to `ne`, a
Sinhala-only text to `si`, an ASCII text to `auto`. -/
theorem C10_translate_source_language_witness :
    translate_src_lang "कක" = "ne" ∧ translate_src_lang "ක" = "si" ∧
    translate_src_lang "hi" = "auto" :=
  ⟨(C10_translate_source_language "कක").1 (by decide),
   (C10_translate_source_language "ක").2.1 (by decide) (by decide),
   (C10_translate_source_language "hi").2.2 (by decide) (by decide)⟩
